import Mathlib

/-!
Verification development for the SimpleSprinkler controller.

This file gives a shallow embedding of the core logic of the repository:

* `opensprinkler_api.py` — the Device Client (`OpenSprinklerAPI`): station
  name filtering (`_is_generic_station_name`), `get_station_names`,
  `get_station_status`, `activate_station`, `deactivate_station`,
  `get_all_data`.  HTTP round trips are modelled by an oracle argument of
  type `Except NetErr ρ`: `Except.error` models the `requests` library
  raising a transport exception (which the Python code does not catch, so
  it propagates), and `Except.ok (ok?, payload)` models a completed round
  trip with `response.ok = ok?` and the parsed JSON payload.

* `sprinkler_control.py` — the controller (`SprinklerControl`): the station
  registry built by `load_stations`, the session map `active_sprinklers`,
  the toggle logic `toggle_station`, and the GPIO debounce logic of
  `button_callback`.  The booleans returned by the remote
  activate/deactivate calls are passed in as oracle arguments, and the
  embedding records which remote call (if any) was issued.

Numbers: Python floats for timestamps are modelled by `ℚ` (milliseconds in
the debouncer, seconds in the session map use `ℤ`); durations are `ℤ`.
-/

/-! ### Python string helpers -/

/-- Characters removed by Python `str.strip()` with no argument
(ASCII whitespace: space, tab, newline, carriage return, vertical tab,
form feed). -/
def pyIsSpace (c : Char) : Bool :=
  c = ' ' || c = '\t' || c = '\n' || c = '\r' || c = '\x0b' || c = '\x0c'

/-- Python `str.strip()` on a list of characters: drop whitespace from
both ends. -/
def pyStripL (cs : List Char) : List Char :=
  ((cs.dropWhile pyIsSpace).reverse.dropWhile pyIsSpace).reverse

/-- Python `str.strip()`. -/
def pyStrip (s : String) : String :=
  ⟨pyStripL s.data⟩

/-! ### `OpenSprinklerAPI._is_generic_station_name` -/

/-- `_is_generic_station_name` from `opensprinkler_api.py`: the stripped
name matches the regex `^[Ss]\d+$` — a mandatory `S` or `s` followed by
one or more digits. -/
def is_generic_station_name (name : String) : Bool :=
  match pyStripL name.data with
  | [] => false
  | c :: cs =>
    if c = 'S' || c = 's' then !cs.isEmpty && cs.all Char.isDigit
    else false

/-- The station meaningfulness filter applied by `get_station_names` and
`load_stations`: `name.strip() and not self._is_generic_station_name(name)`. -/
def passesFilter (name : String) : Bool :=
  !(pyStripL name.data).isEmpty && !is_generic_station_name name

/-! ### `SprinklerControl.load_stations` (Station Registry) -/

/-- The loop body of `load_stations`: iterate over `(actual_idx, name)`
pairs in device order starting at device index `n`; keep each name that
passes the filter, pairing it with its device index.  The position of a
kept pair in the result list is its display index (`display_idx` in the
source increments exactly when a pair is kept). -/
def load_stations_go (n : ℕ) : List String → List (ℕ × String)
  | [] => []
  | name :: rest =>
    if passesFilter name then (n, name) :: load_stations_go (n + 1) rest
    else load_stations_go (n + 1) rest

/-- `load_stations` from `sprinkler_control.py`, as a function of the raw
`snames` list returned by the device: the registry as a list of
`(device_index, name)` pairs, indexed by display index.
`station_indices[d]` is `(load_stations all_names)[d].1` and
`station_names[d]` is `(load_stations all_names)[d].2`. -/
def load_stations (all_names : List String) : List (ℕ × String) :=
  load_stations_go 0 all_names

/-! ### `SprinklerControl` state and `toggle_station` (Toggle Coordinator) -/

/-- The mutable state of a `SprinklerControl` instance relevant to
toggling: `station_names` and `station_indices` as built by
`load_stations`, and the session map `active_sprinklers` from display
index to expiry timestamp (`time.time() + duration`); `none` models the
key being absent from the Python dict. -/
structure CState where
  station_names : List String
  station_indices : List ℕ
  active_sprinklers : ℕ → Option ℤ

/-- The outcome of one `toggle_station` call: the state after the call,
the boolean the Python method returns, and which remote call (if any) was
issued, recorded with the device index it was issued for. -/
structure ToggleResult where
  state : CState
  ok : Bool
  deactivateCalled : Option ℕ
  activateCalled : Option ℕ

/-- `toggle_station(display_id, duration)` from `sprinkler_control.py`.
The booleans `deactOk` and `actOk` are the oracle results of
`api.deactivate_station` / `api.activate_station` for this call (only
consulted if the corresponding call is actually issued); `now` is
`time.time()` at the moment of activation. -/
def toggle_station (st : CState) (deactOk actOk : Bool) (now : ℤ)
    (display_id : ℕ) (duration : ℤ) : ToggleResult :=
  if display_id < st.station_names.length then
    match st.active_sprinklers display_id with
    | some _ =>
      if deactOk then
        { state := { st with active_sprinklers :=
              Function.update st.active_sprinklers display_id none },
          ok := true,
          deactivateCalled := some (st.station_indices.getD display_id 0),
          activateCalled := none }
      else
        { state := st, ok := false,
          deactivateCalled := some (st.station_indices.getD display_id 0),
          activateCalled := none }
    | none =>
      if duration ≤ 0 then
        { state := st, ok := false, deactivateCalled := none,
          activateCalled := none }
      else if actOk then
        { state := { st with active_sprinklers :=
              Function.update st.active_sprinklers display_id (some (now + duration)) },
          ok := true, deactivateCalled := none,
          activateCalled := some (st.station_indices.getD display_id 0) }
      else
        { state := st, ok := false, deactivateCalled := none,
          activateCalled := some (st.station_indices.getD display_id 0) }
  else
    { state := st, ok := false, deactivateCalled := none,
      activateCalled := none }

/-- A sequence of `toggle_station` calls on one display index `d`, each
with both remote oracles succeeding; each list element gives the `now`
timestamp and the requested duration of one call. -/
def togglesSeq (d : ℕ) : CState → List (ℤ × ℤ) → CState
  | st, [] => st
  | st, p :: rest =>
    togglesSeq d (toggle_station st true true p.1 d p.2).state rest

/-! ### `OpenSprinklerAPI` operations (Device Client) -/

/-- A transport-level failure of the `requests` library (connection
refused, DNS failure, timeout, ...).  The Python code in
`opensprinkler_api.py` does not catch these, so they propagate to the
caller as exceptions; the embedding models this by returning
`Except.error`. -/
inductive NetErr where
  | connectionError : NetErr
deriving DecidableEq

/-- `get_station_names` from `opensprinkler_api.py`.  `resp` is the
oracle outcome of `requests.get(base_url + "/jn?...")`: on a completed
round trip it carries `response.ok` and the parsed `snames` list.  Note
the method filters the names (it keeps only names passing
`passesFilter`); on `response.ok = false` it returns `[]`; a transport
exception propagates. -/
def get_station_names (resp : Except NetErr (Bool × List String)) :
    Except NetErr (List String) :=
  match resp with
  | .error e => .error e
  | .ok (rok, all_names) =>
    if rok then .ok (all_names.filter passesFilter) else .ok []

/-- `get_station_status` from `opensprinkler_api.py`.  First round trip
(`/js`) yields the `sn` state bits (`respStatus`); if it completed with
`response.ok`, a second round trip (`/jn`) fetches the names
(`respNames`) to compute the indices of non-generic stations; the state
bits are then re-indexed through those indices (with a bounds check).  If
the second request completes without `ok`, the method falls through and
returns `[]` even though the state bits were fetched. -/
def get_station_status (respStatus : Except NetErr (Bool × List ℕ))
    (respNames : Except NetErr (Bool × List String)) :
    Except NetErr (List ℕ) :=
  match respStatus with
  | .error e => .error e
  | .ok (sok, all_status) =>
    if sok then
      match respNames with
      | .error e => .error e
      | .ok (nok, all_names) =>
        if nok then
          let valid_indices :=
            ((all_names.enum.filter fun p => passesFilter p.2).map fun p => p.1)
          .ok (((valid_indices.filter fun i => i < all_status.length).map
            fun i => all_status.getD i 0))
        else .ok []
    else .ok []

/-- `activate_station(station_id, duration)` from `opensprinkler_api.py`:
returns `response.ok` of the `/cm?...&en=1&t=duration` round trip; a
transport exception propagates. -/
def activate_station (station_id : ℕ) (duration : ℤ)
    (resp : Except NetErr Bool) : Except NetErr Bool :=
  match station_id, duration, resp with
  | _, _, .error e => .error e
  | _, _, .ok rok => .ok rok

/-- `deactivate_station(station_id)` from `opensprinkler_api.py`:
returns `response.ok` of the `/cm?...&en=0` round trip; a transport
exception propagates. -/
def deactivate_station (station_id : ℕ) (resp : Except NetErr Bool) :
    Except NetErr Bool :=
  match station_id, resp with
  | _, .error e => .error e
  | _, .ok rok => .ok rok

/-- `get_all_data` from `opensprinkler_api.py`: returns the parsed `/ja`
blob as-is on `response.ok`, the empty dict (`emptyBlob`) on a non-ok
response; a transport exception propagates. -/
def get_all_data {α : Type} (emptyBlob : α)
    (resp : Except NetErr (Bool × α)) : Except NetErr α :=
  match resp with
  | .error e => .error e
  | .ok (rok, blob) => if rok then .ok blob else .ok emptyBlob

/-! ### GPIO debouncing: `button_callback` (Input Debouncer) -/

/-- `BUTTON_PINS` from `sprinkler_control.py`: station display index to
GPIO pin. -/
def BUTTON_PINS : List (ℕ × ℕ) := [(0, 26), (1, 6), (2, 13), (3, 19)]

/-- `DEBOUNCE_TIME` (milliseconds). -/
def DEBOUNCE_TIME : ℚ := 300

/-- The station lookup loop at the top of `button_callback`: the first
station whose configured pin equals `channel`, if any. -/
def findStation (channel : ℕ) : Option ℕ :=
  (BUTTON_PINS.find? fun p => p.2 = channel).map fun p => p.1

/-- The debounce gate of `button_callback(channel)` in
`sprinkler_control.py`.  `last` is `self.last_button_press` (pin →
milliseconds, initialised to `0` for every configured pin) and
`current_time` is `time.time() * 1000`.  Returns the updated timestamp
map and whether a toggle was dispatched: the edge is accepted exactly
when `current_time - last[channel] > DEBOUNCE_TIME` (strict), in which
case the timestamp is reset and one `toggle_station` call is dispatched;
otherwise the edge is dropped.  Unknown channels dispatch nothing. -/
def button_callback (last : ℕ → ℚ) (current_time : ℚ) (channel : ℕ) :
    (ℕ → ℚ) × Bool :=
  match findStation channel with
  | none => (last, false)
  | some _ =>
    if DEBOUNCE_TIME < current_time - last channel then
      (Function.update last channel current_time, true)
    else (last, false)

/-- Feed a list of raw edge timestamps on one channel through
`button_callback`, collecting for each edge whether a toggle was
dispatched. -/
def edgesDispatch (channel : ℕ) : (ℕ → ℚ) → List ℚ → List Bool
  | _, [] => []
  | last, t :: ts =>
    let r := button_callback last t channel
    r.2 :: edgesDispatch channel r.1 ts

example : edgesDispatch 26 (fun _ => 0) [1000, 1050, 1400] =
    [true, false, true] := by
  norm_num [edgesDispatch, button_callback, findStation, BUTTON_PINS,
    DEBOUNCE_TIME, Function.update]

/-! ### Helper lemmas about `toggle_station` -/

theorem toggle_station_preserves_names (st : CState) (deactOk actOk : Bool)
    (now : ℤ) (d : ℕ) (dur : ℤ) :
    (toggle_station st deactOk actOk now d dur).state.station_names =
      st.station_names := by
  unfold toggle_station
  split
  · split
    · split <;> rfl
    · split
      · rfl
      · split <;> rfl
  · rfl

theorem toggle_station_flip (st : CState) (now : ℤ) (d : ℕ) (dur : ℤ)
    (hv : d < st.station_names.length)
    (hpos : st.active_sprinklers d = none → 0 < dur) :
    ((toggle_station st true true now d dur).state.active_sprinklers d).isSome
      = !(st.active_sprinklers d).isSome := by
  unfold toggle_station
  rw [if_pos hv]
  cases hact : st.active_sprinklers d with
  | some e => simp [Function.update_same]
  | none =>
    have h1 : ¬ dur ≤ 0 := not_le.mpr (hpos hact)
    simp [h1, Function.update_same]

/-- Concrete controller state used by the witnesses: the registry built
from the scenario name list, no station active. -/
def demoState : CState :=
  { station_names := ["Front Lawn", "Back Garden"],
    station_indices := [1, 3],
    active_sprinklers := fun _ => none }

/-- `demoState` after a successful activation of display index 0 for 120
seconds at time 0 (so `active_sprinklers 0 = some 120`). -/
def demoActive : CState :=
  (toggle_station demoState true true 0 0 120).state

/-! Branch evaluation lemmas for `toggle_station`. -/

theorem toggle_station_invalid (st : CState) (deactOk actOk : Bool)
    (now : ℤ) (d : ℕ) (dur : ℤ) (hv : ¬ d < st.station_names.length) :
    toggle_station st deactOk actOk now d dur =
      { state := st, ok := false, deactivateCalled := none,
        activateCalled := none } := by
  unfold toggle_station
  rw [if_neg hv]

theorem toggle_station_deact_success (st : CState) (actOk : Bool)
    (now : ℤ) (d : ℕ) (dur : ℤ) (e : ℤ)
    (hv : d < st.station_names.length)
    (hact : st.active_sprinklers d = some e) :
    toggle_station st true actOk now d dur =
      { state := { st with active_sprinklers :=
            Function.update st.active_sprinklers d none },
        ok := true, deactivateCalled := some (st.station_indices.getD d 0),
        activateCalled := none } := by
  unfold toggle_station
  rw [if_pos hv, hact]
  rfl

theorem toggle_station_deact_fail (st : CState) (actOk : Bool)
    (now : ℤ) (d : ℕ) (dur : ℤ) (e : ℤ)
    (hv : d < st.station_names.length)
    (hact : st.active_sprinklers d = some e) :
    toggle_station st false actOk now d dur =
      { state := st, ok := false,
        deactivateCalled := some (st.station_indices.getD d 0),
        activateCalled := none } := by
  unfold toggle_station
  rw [if_pos hv, hact]
  rfl

theorem toggle_station_duration_reject (st : CState) (deactOk actOk : Bool)
    (now : ℤ) (d : ℕ) (dur : ℤ)
    (hv : d < st.station_names.length)
    (hact : st.active_sprinklers d = none) (hdur : dur ≤ 0) :
    toggle_station st deactOk actOk now d dur =
      { state := st, ok := false, deactivateCalled := none,
        activateCalled := none } := by
  unfold toggle_station
  rw [if_pos hv, hact]
  dsimp only
  rw [if_pos hdur]

theorem toggle_station_act_success (st : CState) (deactOk : Bool)
    (now : ℤ) (d : ℕ) (dur : ℤ)
    (hv : d < st.station_names.length)
    (hact : st.active_sprinklers d = none) (hdur : ¬ dur ≤ 0) :
    toggle_station st deactOk true now d dur =
      { state := { st with active_sprinklers :=
            Function.update st.active_sprinklers d (some (now + dur)) },
        ok := true, deactivateCalled := none,
        activateCalled := some (st.station_indices.getD d 0) } := by
  unfold toggle_station
  rw [if_pos hv, hact]
  dsimp only
  rw [if_neg hdur]
  rfl

theorem toggle_station_act_fail (st : CState) (deactOk : Bool)
    (now : ℤ) (d : ℕ) (dur : ℤ)
    (hv : d < st.station_names.length)
    (hact : st.active_sprinklers d = none) (hdur : ¬ dur ≤ 0) :
    toggle_station st deactOk false now d dur =
      { state := st, ok := false, deactivateCalled := none,
        activateCalled := some (st.station_indices.getD d 0) } := by
  unfold toggle_station
  rw [if_pos hv, hact]
  dsimp only
  rw [if_neg hdur]
  rfl

/-- C1: session state is mutated only on confirmed remote success.  For a
valid display index `d`: if the deactivate (resp. activate) call was
issued and its remote result was failure, the session map is exactly the
same after `toggle_station` as before and the call reports failure
(returns `False`, the code's rejection on device-communication failure);
an index is removed from the map only when the deactivate oracle returned
success, and added only when the activate oracle returned success; in
particular, a failed deactivate on an active index leaves that index
active and reports failure. -/
theorem toggle_station_mutates_only_on_remote_success
    (st : CState) (deactOk actOk : Bool) (now : ℤ) (d : ℕ) (dur : ℤ)
    (hv : d < st.station_names.length) :
    ((toggle_station st deactOk actOk now d dur).deactivateCalled.isSome →
      deactOk = false →
      (toggle_station st deactOk actOk now d dur).state.active_sprinklers =
          st.active_sprinklers ∧
        (toggle_station st deactOk actOk now d dur).ok = false) ∧
    ((toggle_station st deactOk actOk now d dur).activateCalled.isSome →
      actOk = false →
      (toggle_station st deactOk actOk now d dur).state.active_sprinklers =
          st.active_sprinklers ∧
        (toggle_station st deactOk actOk now d dur).ok = false) ∧
    (∀ i, (st.active_sprinklers i).isSome →
      (toggle_station st deactOk actOk now d dur).state.active_sprinklers i = none →
      deactOk = true) ∧
    (∀ i, st.active_sprinklers i = none →
      ((toggle_station st deactOk actOk now d dur).state.active_sprinklers i).isSome →
      actOk = true) ∧
    ((st.active_sprinklers d).isSome → deactOk = false →
      (toggle_station st deactOk actOk now d dur).state.active_sprinklers d =
          st.active_sprinklers d ∧
        (toggle_station st deactOk actOk now d dur).ok = false) := by
  cases hact : st.active_sprinklers d with
  | some e =>
    cases deactOk with
    | true =>
      rw [toggle_station_deact_success st actOk now d dur e hv hact]
      refine ⟨?_, ?_, ?_, ?_, ?_⟩ <;> dsimp only
      · intro _ h; cases h
      · intro h; cases h
      · intro i _ _; rfl
      · intro i h1 h2
        rcases eq_or_ne i d with rfl | hne
        · rw [hact] at h1; cases h1
        · rw [Function.update_noteq hne] at h2
          rw [h1] at h2; cases h2
      · intro _ h; cases h
    | false =>
      rw [toggle_station_deact_fail st actOk now d dur e hv hact]
      refine ⟨?_, ?_, ?_, ?_, ?_⟩ <;> dsimp only
      · intro _ _; exact ⟨rfl, rfl⟩
      · intro h; cases h
      · intro i h1 h2; rw [h2] at h1; cases h1
      · intro i h1 h2; rw [h1] at h2; cases h2
      · intro _ _; exact ⟨hact, rfl⟩
  | none =>
    by_cases hdur : dur ≤ 0
    · rw [toggle_station_duration_reject st deactOk actOk now d dur hv hact hdur]
      refine ⟨?_, ?_, ?_, ?_, ?_⟩ <;> dsimp only
      · intro h; cases h
      · intro h; cases h
      · intro i h1 h2; rw [h2] at h1; cases h1
      · intro i h1 h2; rw [h1] at h2; cases h2
      · intro h; cases h
    · cases actOk with
      | true =>
        rw [toggle_station_act_success st deactOk now d dur hv hact hdur]
        refine ⟨?_, ?_, ?_, ?_, ?_⟩ <;> dsimp only
        · intro h; cases h
        · intro _ h; cases h
        · intro i h1 h2
          rcases eq_or_ne i d with rfl | hne
          · rw [Function.update_same] at h2; cases h2
          · rw [Function.update_noteq hne] at h2
            rw [h2] at h1; cases h1
        · intro i _ _; rfl
        · intro h; cases h
      | false =>
        rw [toggle_station_act_fail st deactOk now d dur hv hact hdur]
        refine ⟨?_, ?_, ?_, ?_, ?_⟩ <;> dsimp only
        · intro h; cases h
        · intro _ _; exact ⟨rfl, rfl⟩
        · intro i h1 h2; rw [h2] at h1; cases h1
        · intro i h1 h2; rw [h1] at h2; cases h2
        · intro h; cases h

/-- Witness for C1: the spec scenario — display 0 activated for 120
seconds, then a toggle whose deactivate call fails; the session map is
untouched, index 0 stays active, and the call reports failure. -/
theorem toggle_station_mutates_only_on_remote_success_witness :
    0 < demoActive.station_names.length ∧
    (((toggle_station demoActive false false 0 0 120).deactivateCalled.isSome →
      false = false →
      (toggle_station demoActive false false 0 0 120).state.active_sprinklers =
          demoActive.active_sprinklers ∧
        (toggle_station demoActive false false 0 0 120).ok = false) ∧
    ((toggle_station demoActive false false 0 0 120).activateCalled.isSome →
      false = false →
      (toggle_station demoActive false false 0 0 120).state.active_sprinklers =
          demoActive.active_sprinklers ∧
        (toggle_station demoActive false false 0 0 120).ok = false) ∧
    (∀ i, (demoActive.active_sprinklers i).isSome →
      (toggle_station demoActive false false 0 0 120).state.active_sprinklers i = none →
      false = true) ∧
    (∀ i, demoActive.active_sprinklers i = none →
      ((toggle_station demoActive false false 0 0 120).state.active_sprinklers i).isSome →
      false = true) ∧
    ((demoActive.active_sprinklers 0).isSome → false = false →
      (toggle_station demoActive false false 0 0 120).state.active_sprinklers 0 =
          demoActive.active_sprinklers 0 ∧
        (toggle_station demoActive false false 0 0 120).ok = false)) :=
  ⟨by decide,
    toggle_station_mutates_only_on_remote_success demoActive false false 0 0 120
      (by decide)⟩

/-- C9: for a valid display index that is not currently active, a toggle
requested with a non-positive duration is rejected: the method returns
`False` (the `InvalidDuration` rejection), no activate or deactivate call
is issued to the device, and the session map — indeed the whole state —
is unchanged. -/
theorem toggle_station_rejects_nonpositive_duration
    (st : CState) (deactOk actOk : Bool) (now : ℤ) (d : ℕ) (dur : ℤ)
    (hv : d < st.station_names.length)
    (hinact : st.active_sprinklers d = none) (hdur : dur ≤ 0) :
    toggle_station st deactOk actOk now d dur =
      { state := st, ok := false, deactivateCalled := none,
        activateCalled := none } :=
  toggle_station_duration_reject st deactOk actOk now d dur hv hinact hdur

/-- Witness for C9: on the demo registry with no active station, a toggle
of display 0 with duration 0 is rejected without device calls or state
change. -/
theorem toggle_station_rejects_nonpositive_duration_witness :
    toggle_station demoState true true 0 0 0 =
      { state := demoState, ok := false, deactivateCalled := none,
        activateCalled := none } :=
  toggle_station_rejects_nonpositive_duration demoState true true 0 0 0
    (by decide) rfl (by decide)

/-- Parity of a toggle sequence with all remote calls succeeding: the
active bit of index `d` after the sequence is the initial bit xor the
parity of the sequence length.  A positive duration is required only of
the calls made while the index is inactive (the activations): call `k`
finds the index inactive exactly when the initial bit xor the parity of
`k` is false, and only there is the duration read. -/
theorem togglesSeq_parity (d : ℕ) :
    ∀ (l : List (ℤ × ℤ)) (st : CState), d < st.station_names.length →
    (∀ (k : ℕ) (hk : k < l.length),
      xor ((st.active_sprinklers d).isSome) (decide (k % 2 = 1)) = false →
      0 < (l.get ⟨k, hk⟩).2) →
    ((togglesSeq d st l).active_sprinklers d).isSome =
      xor ((st.active_sprinklers d).isSome) (decide (l.length % 2 = 1)) := by
  intro l
  induction l with
  | nil =>
    intro st hv _
    simp [togglesSeq]
  | cons p rest ih =>
    intro st hv hdur
    have hv1 : d < (toggle_station st true true p.1 d p.2).state.station_names.length := by
      rw [toggle_station_preserves_names]; exact hv
    have hpos : st.active_sprinklers d = none → 0 < p.2 := by
      intro hnone
      have h0 := hdur 0 (Nat.succ_pos rest.length) (by rw [hnone]; rfl)
      exact h0
    have hflip := toggle_station_flip st p.1 d p.2 hv hpos
    have hdur1 : ∀ (k : ℕ) (hk : k < rest.length),
        xor (((toggle_station st true true p.1 d p.2).state.active_sprinklers d).isSome)
          (decide (k % 2 = 1)) = false →
        0 < (rest.get ⟨k, hk⟩).2 := by
      intro k hk hcond
      rw [hflip] at hcond
      have hk1 : k + 1 < (p :: rest).length := Nat.succ_lt_succ hk
      have hcond1 : xor ((st.active_sprinklers d).isSome)
          (decide ((k + 1) % 2 = 1)) = false := by
        have hmod : ((k + 1) % 2 = 1) ↔ ¬ (k % 2 = 1) := by omega
        rw [decide_eq_decide.mpr hmod, decide_not]
        cases hb : (st.active_sprinklers d).isSome <;>
          cases hc : decide (k % 2 = 1) <;> simp_all
      exact hdur (k + 1) hk1 hcond1
    have hrec := ih (toggle_station st true true p.1 d p.2).state hv1 hdur1
    rw [togglesSeq, hrec, hflip]
    have hmod : ((p :: rest : List (ℤ × ℤ)).length % 2 = 1) ↔ ¬ (rest.length % 2 = 1) := by
      simp only [List.length_cons]
      omega
    rw [decide_eq_decide.mpr hmod, decide_not]
    cases (st.active_sprinklers d).isSome <;>
      cases decide (rest.length % 2 = 1) <;> rfl

/-- C2: for a valid display index starting inactive, a sequence of
`toggle_station` calls in which every remote call succeeds and every
activation (every call at an even position, i.e. made while the index is
inactive) is requested with a positive duration alternates the
active/inactive state exactly with the sequence: after the calls the
index is active iff the number of calls is odd (so two consecutive
successful toggles restore the original inactive state).  Deactivations
may carry any duration, including the code's default 0. -/
theorem toggle_station_sequence_alternates
    (st : CState) (d : ℕ) (l : List (ℤ × ℤ))
    (hv : d < st.station_names.length)
    (hstart : st.active_sprinklers d = none)
    (hdur : ∀ (k : ℕ) (hk : k < l.length), k % 2 = 0 → 0 < (l.get ⟨k, hk⟩).2) :
    ((togglesSeq d st l).active_sprinklers d).isSome =
      decide (l.length % 2 = 1) := by
  have h := togglesSeq_parity d l st hv ?_
  · rw [h, hstart]
    exact Bool.false_xor _
  · intro k hk hcond
    rw [hstart] at hcond
    have hc : decide (k % 2 = 1) = false := by simpa using hcond
    have hk2 : ¬ k % 2 = 1 := of_decide_eq_false hc
    exact hdur k hk (by omega)

/-- Witness for C2: on the demo registry, a successful activation of
display 0 for 120 seconds followed by a successful off-toggle with the
code's default duration 0 leaves the station inactive again. -/
theorem toggle_station_sequence_alternates_witness :
    ((togglesSeq 0 demoState [(0, 120), (5, 0)]).active_sprinklers 0).isSome =
      decide (([(0, 120), (5, 0)] : List (ℤ × ℤ)).length % 2 = 1) :=
  toggle_station_sequence_alternates demoState 0 [(0, 120), (5, 0)]
    (by decide) rfl (by decide)

/-- C3 counterexample: the claim accepts an edge arriving exactly one
debounce window after the last accepted edge (`T >= suppress_until`).
In the code the test is strict (`current - last > DEBOUNCE_TIME`): after
an accepted edge at t=1000ms on channel 26, an edge at exactly
t=1300ms = 1000ms + the 300ms window — which the claim says is accepted —
is dropped (no toggle dispatched). -/
theorem debounce_window_boundary_edge_dropped :
    edgesDispatch 26 (fun _ => 0) [1000, 1300] = [true, false] ∧
    (1000 : ℚ) + DEBOUNCE_TIME ≤ 1300 := by
  constructor
  · norm_num [edgesDispatch, button_callback, findStation, BUTTON_PINS,
      DEBOUNCE_TIME, Function.update]
  · norm_num [DEBOUNCE_TIME]

/-- C3 (amended): per physical line, a raw edge at time `T` is dropped
(no toggle dispatched, timestamp unchanged) when `T` is at most the last
accepted timestamp plus the debounce window (`T - last ≤ DEBOUNCE_TIME`),
and is treated as a fresh edge — dispatching exactly one toggle and
resetting the timestamp — exactly when `T` is strictly later
(`T - last > DEBOUNCE_TIME`); an edge arriving exactly one window after
the last accepted edge is dropped.  For three edges at t=1000ms, 1050ms,
1400ms with the 300ms window (times such that the first edge clears the
initial zero timestamp), toggles are dispatched at t=1000 and t=1400
only. -/
theorem button_callback_debounce_characterisation
    (last : ℕ → ℚ) (T : ℚ) (channel s : ℕ)
    (hch : findStation channel = some s) :
    (T - last channel ≤ DEBOUNCE_TIME →
      button_callback last T channel = (last, false)) ∧
    (DEBOUNCE_TIME < T - last channel →
      button_callback last T channel = (Function.update last channel T, true)) ∧
    edgesDispatch 26 (fun _ => 0) [1000, 1050, 1400] = [true, false, true] := by
  refine ⟨?_, ?_, ?_⟩
  · intro h
    unfold button_callback
    rw [hch, if_neg (not_lt.mpr h)]
  · intro h
    unfold button_callback
    rw [hch, if_pos h]
  · norm_num [edgesDispatch, button_callback, findStation, BUTTON_PINS,
      DEBOUNCE_TIME, Function.update]

/-- Witness for C3 (amended): channel 26 is configured (station 0); at
T=400 with last accepted timestamp 0 the characterisation applies. -/
theorem button_callback_debounce_characterisation_witness :
    findStation 26 = some 0 ∧
    (((400 : ℚ) - (fun _ : ℕ => (0 : ℚ)) 26 ≤ DEBOUNCE_TIME →
      button_callback (fun _ : ℕ => (0 : ℚ)) 400 26 = (fun _ : ℕ => (0 : ℚ), false)) ∧
    (DEBOUNCE_TIME < (400 : ℚ) - (fun _ : ℕ => (0 : ℚ)) 26 →
      button_callback (fun _ : ℕ => (0 : ℚ)) 400 26 =
        (Function.update (fun _ : ℕ => (0 : ℚ)) 26 400, true)) ∧
    edgesDispatch 26 (fun _ => 0) [1000, 1050, 1400] = [true, false, true]) :=
  ⟨by decide,
    button_callback_debounce_characterisation (fun _ : ℕ => (0 : ℚ)) 400 26 0
      (by decide)⟩

/-- C4 counterexample: the claim's generic pattern makes the `S`
optional, so the digit-only name "7" would be excluded as generic; the
code's pattern `^[Ss]\d+$` requires the `S`, and "7" — trimmed, non-empty
and consisting only of digits — survives the filter. -/
theorem digit_only_name_survives_filter :
    passesFilter "7" = true ∧
    is_generic_station_name "7" = false ∧
    pyStripL "7".data ≠ [] ∧
    (pyStripL "7".data).all Char.isDigit = true := by
  decide

/-- `_is_generic_station_name` accepts exactly the names whose trimmed
form is an `S` or `s` followed by one or more digits. -/
theorem is_generic_iff (name : String) :
    is_generic_station_name name = true ↔
      ∃ c cs, pyStripL name.data = c :: cs ∧ (c = 'S' ∨ c = 's') ∧
        cs ≠ [] ∧ ∀ x ∈ cs, x.isDigit = true := by
  unfold is_generic_station_name
  cases h : pyStripL name.data with
  | nil => simp
  | cons c cs =>
    dsimp only
    constructor
    · intro hg
      split at hg
      · rename_i hcond
        rw [Bool.and_eq_true] at hg
        refine ⟨c, cs, rfl, ?_, ?_, ?_⟩
        · simpa using hcond
        · simpa using hg.1
        · simpa [List.all_eq_true] using hg.2
      · cases hg
    · rintro ⟨c2, cs2, heq, hc2, hne, hdig⟩
      injection heq with e1 e2
      subst e1; subst e2
      rw [if_pos (by simpa using hc2), Bool.and_eq_true]
      exact ⟨by simpa using hne, by simpa [List.all_eq_true] using hdig⟩

/-- C4 (amended): the station meaningfulness filter keeps exactly the
names that, after trimming, are non-empty and do not match the generic
pattern with a mandatory case-insensitive `S` followed by one or more
digits; in particular a name consisting only of digits is kept. -/
theorem passesFilter_characterisation (name : String) :
    passesFilter name = true ↔
      (pyStripL name.data ≠ [] ∧
        ¬ ∃ c cs, pyStripL name.data = c :: cs ∧ (c = 'S' ∨ c = 's') ∧
          cs ≠ [] ∧ ∀ x ∈ cs, x.isDigit = true) := by
  unfold passesFilter
  rw [Bool.and_eq_true]
  constructor
  · rintro ⟨h1, h2⟩
    refine ⟨by simpa using h1, ?_⟩
    intro hex
    have := (is_generic_iff name).mpr hex
    rw [this] at h2
    cases h2
  · rintro ⟨h1, h2⟩
    constructor
    · simpa using h1
    · cases hb : is_generic_station_name name with
      | true => exact absurd ((is_generic_iff name).mp hb) h2
      | false => rfl

/-- C5: building the registry from the raw device name list
`["S1", "Front Lawn", "s2", "Back Garden", ""]` yields exactly two
stations: display index 0 maps to device index 1 with name "Front Lawn",
display index 1 maps to device index 3 with name "Back Garden". -/
theorem load_stations_scenario :
    load_stations ["S1", "Front Lawn", "s2", "Back Garden", ""] =
      [(1, "Front Lawn"), (3, "Back Garden")] := by
  decide

/-- Every device index recorded by the `load_stations` loop is at least
the starting index. -/
theorem load_stations_go_lower (l : List String) :
    ∀ (n : ℕ) (p : ℕ × String), p ∈ load_stations_go n l → n ≤ p.1 := by
  induction l with
  | nil => intro n p h; cases h
  | cons a rest ih =>
    intro n p h
    unfold load_stations_go at h
    by_cases hp : passesFilter a = true
    · rw [if_pos hp] at h
      rcases List.mem_cons.mp h with rfl | hmem
      · exact le_refl n
      · exact le_trans (Nat.le_succ n) (ih (n + 1) p hmem)
    · rw [if_neg hp] at h
      exact le_trans (Nat.le_succ n) (ih (n + 1) p h)

/-- The `load_stations` loop keeps one entry per name passing the
filter. -/
theorem load_stations_go_length (l : List String) :
    ∀ n : ℕ, (load_stations_go n l).length = l.countP passesFilter := by
  induction l with
  | nil => intro n; rfl
  | cons a rest ih =>
    intro n
    unfold load_stations_go
    by_cases hp : passesFilter a = true
    · rw [if_pos hp]
      simp [List.countP_cons, hp, ih]
    · rw [if_neg hp]
      simp [List.countP_cons, hp, ih]

/-- The device indices recorded by the `load_stations` loop are strictly
increasing along the result (display) order. -/
theorem load_stations_go_pairwise (l : List String) :
    ∀ n : ℕ, (load_stations_go n l).Pairwise
      (fun a b : ℕ × String => a.1 < b.1) := by
  induction l with
  | nil => intro n; exact List.Pairwise.nil
  | cons a rest ih =>
    intro n
    unfold load_stations_go
    by_cases hp : passesFilter a = true
    · rw [if_pos hp]
      refine List.Pairwise.cons ?_ (ih (n + 1))
      intro q hq
      exact lt_of_lt_of_le (Nat.lt_succ_self n) (load_stations_go_lower rest (n + 1) q hq)
    · rw [if_neg hp]
      exact ih (n + 1)

/-- Membership in the `load_stations` loop result: exactly the
offset-indexed names passing the filter. -/
theorem load_stations_go_mem (l : List String) :
    ∀ (n : ℕ) (p : ℕ × String), p ∈ load_stations_go n l ↔
      ∃ k, l[k]? = some p.2 ∧ p.1 = n + k ∧ passesFilter p.2 = true := by
  induction l with
  | nil =>
    intro n p
    constructor
    · intro h; cases h
    · rintro ⟨k, hk, -, -⟩
      rw [List.getElem?_nil] at hk
      cases hk
  | cons a rest ih =>
    intro n p
    unfold load_stations_go
    by_cases hp : passesFilter a = true
    · rw [if_pos hp]
      constructor
      · intro h
        rcases List.mem_cons.mp h with rfl | hmem
        · exact ⟨0, by simp, by simp, hp⟩
        · rcases (ih (n + 1) p).mp hmem with ⟨j, hj, hpj, hpass⟩
          exact ⟨j + 1, by simpa using hj, by omega, hpass⟩
      · rintro ⟨k, hk, hpk, hpass⟩
        cases k with
        | zero =>
          rw [List.getElem?_cons_zero] at hk
          injection hk with hk2
          rcases p with ⟨p1, p2⟩
          simp only at hpk hk2
          subst hk2
          have : p1 = n := by omega
          subst this
          exact List.mem_cons_self _ _
        | succ j =>
          rw [List.getElem?_cons_succ] at hk
          exact List.mem_cons_of_mem _
            ((ih (n + 1) p).mpr ⟨j, hk, by omega, hpass⟩)
    · rw [if_neg hp]
      constructor
      · intro h
        rcases (ih (n + 1) p).mp h with ⟨j, hj, hpj, hpass⟩
        exact ⟨j + 1, by simpa using hj, by omega, hpass⟩
      · rintro ⟨k, hk, hpk, hpass⟩
        cases k with
        | zero =>
          rw [List.getElem?_cons_zero] at hk
          injection hk with hk2
          rw [hk2] at hp
          exact absurd hpass hp
        | succ j =>
          rw [List.getElem?_cons_succ] at hk
          exact (ih (n + 1) p).mpr ⟨j, hk, by omega, hpass⟩

/-- C6: registry invariant.  For every raw name list: the registry has
exactly one entry per name passing the filter (display indices are the
contiguous positions 0..N-1 of the result list); an entry `(dev, name)`
is in the registry iff device index `dev` carries `name` in the raw list
and `name` passes the filter (non-blank, non-generic); and the
display-index → device-index map is strictly increasing (hence an
injection). -/
theorem load_stations_registry_invariant (l : List String) :
    (load_stations l).length = l.countP passesFilter ∧
    (∀ p : ℕ × String, p ∈ load_stations l ↔
      (l[p.1]? = some p.2 ∧ passesFilter p.2 = true)) ∧
    List.Pairwise (fun a b : ℕ × String => a.1 < b.1) (load_stations l) ∧
    (∀ i j : Fin (load_stations l).length, i < j →
      ((load_stations l).get i).1 < ((load_stations l).get j).1) := by
  refine ⟨load_stations_go_length l 0, ?_, load_stations_go_pairwise l 0, ?_⟩
  · intro p
    rw [load_stations, load_stations_go_mem l 0 p]
    constructor
    · rintro ⟨k, hk, hpk, hpass⟩
      have : p.1 = k := by omega
      rw [this]
      exact ⟨hk, hpass⟩
    · rintro ⟨hk, hpass⟩
      exact ⟨p.1, hk, by omega, hpass⟩
  · exact List.pairwise_iff_get.mp (load_stations_go_pairwise l 0)

/-- C7 counterexample: the Device Client does not "never raise" on
transport failure.  On a transport-level failure of the underlying HTTP
request (modelled as `Except.error`, since the Python code wraps
`requests.get` in no try/except), `get_station_names` propagates the
exception to its caller instead of collapsing it to the empty list. -/
theorem get_station_names_propagates_transport_error :
    get_station_names (Except.error NetErr.connectionError) =
      Except.error NetErr.connectionError ∧
    (Except.error NetErr.connectionError : Except NetErr (List String)) ≠
      Except.ok [] := by
  refine ⟨rfl, ?_⟩
  intro h
  cases h

/-- C7 (amended): each Device Client operation maps a completed round
trip whose HTTP response is non-success (`response.ok` false) to an
empty list / false flag / empty blob without raising; but a
transport-level exception of the HTTP library is not caught and
propagates to the caller from every operation. -/
theorem device_client_failure_behaviour (e : NetErr) (ns : List String)
    (sts : List ℕ) (rn : Except NetErr (Bool × List String))
    (sid : ℕ) (dur : ℤ) {α : Type} (emptyBlob blob : α) :
    (get_station_names (Except.ok (false, ns)) = Except.ok [] ∧
      get_station_status (Except.ok (false, sts)) rn = Except.ok [] ∧
      get_station_status (Except.ok (true, sts)) (Except.ok (false, ns)) =
        Except.ok [] ∧
      activate_station sid dur (Except.ok false) = Except.ok false ∧
      deactivate_station sid (Except.ok false) = Except.ok false ∧
      get_all_data emptyBlob (Except.ok (false, blob)) = Except.ok emptyBlob) ∧
    (get_station_names (Except.error e) = Except.error e ∧
      get_station_status (Except.error e) rn = Except.error e ∧
      get_station_status (Except.ok (true, sts)) (Except.error e) =
        Except.error e ∧
      activate_station sid dur (Except.error e) = Except.error e ∧
      deactivate_station sid (Except.error e) = Except.error e ∧
      get_all_data emptyBlob (Except.error e) = Except.error e) :=
  ⟨⟨rfl, rfl, rfl, rfl, rfl, rfl⟩, ⟨rfl, rfl, rfl, rfl, rfl, rfl⟩⟩

/-- C8 counterexample: `get_station_names` does not return the raw
device names.  With the device reporting `["S1", "Front Lawn"]`, the
method returns `["Front Lawn"]` — the generic name "S1" is removed, so
the result is not the raw list. -/
theorem get_station_names_not_raw :
    get_station_names (Except.ok (true, ["S1", "Front Lawn"])) =
      Except.ok ["Front Lawn"] ∧
    (Except.ok ["Front Lawn"] : Except NetErr (List String)) ≠
      Except.ok ["S1", "Front Lawn"] := by
  refine ⟨rfl, ?_⟩
  intro h
  injection h with h2
  exact absurd h2 (by decide)

/-- C8 (amended): on a successful round trip `get_station_names` returns
the device's names with the blank and generic ones removed: the result is
an order-preserving sublist of the raw `snames` list containing exactly
the names that pass the meaningfulness filter. -/
theorem get_station_names_returns_filtered_sublist (ns : List String) :
    ∃ out, get_station_names (Except.ok (true, ns)) = Except.ok out ∧
      out.Sublist ns ∧
      (∀ name, name ∈ out ↔ (name ∈ ns ∧ passesFilter name = true)) := by
  refine ⟨ns.filter passesFilter, rfl, List.filter_sublist ns, ?_⟩
  intro name
  simp [List.mem_filter]

/-- C10: the status query performs a second round trip for the name list
to compute the filtered index set, and returns the empty list whenever
that names request completes without success — even when the first
(status) request succeeded and the state bits `sts` were fetched.  The
second conjunct shows the same fetched state bits are returned when the
names request succeeds, so the emptiness is caused by the names request
alone. -/
theorem get_station_status_empty_on_names_failure
    (sts : List ℕ) (ns : List String) :
    get_station_status (Except.ok (true, sts)) (Except.ok (false, ns)) =
      Except.ok [] ∧
    get_station_status (Except.ok (true, [1, 0]))
        (Except.ok (true, ["Front Lawn", "Back Garden"])) =
      Except.ok [1, 0] :=
  ⟨rfl, by rfl⟩
